import Mathlib

/-!
Shallow embedding of the command-composition and process-pipeline core of
`src/cmake_cli/base_cmake_builder.py` (class `BaseCMakeBuilder`), together
with theorems checking the natural-language specification against it.

The embedding models:
* the pipeline executor `piped_runner` (stdio wiring of each spawned stage,
  and the reverse-order wait loop that determines the exit status);
* the command assembler inside `BaseCMakeBuilder.build` (generation command,
  build command, native-build-tool pass-through arguments);
* the control flow of `build` itself (skip flags, the Debug/debug-info
  assertion, and the order generation runs before the build pipeline).

External effects are modelled explicitly: presence of executables on the
system path and the detected core count form an `Env` oracle; warnings are
returned as strings; child exit codes are inputs to the executor model.
-/

namespace CmakeCli

/-- Environment oracle: which executables resolve on the system path
(`shutil.which(cmd) is not None`) and the detected logical core count
(`multiprocessing.cpu_count()`). -/
structure Env where
  inPath : String → Bool
  cpu_count : Nat

/-- `BaseCMakeBuilder.exists_in_path`: `shutil.which(cmd) is not None`. -/
def exists_in_path (env : Env) (cmd : String) : Bool :=
  env.inPath cmd

/-- `BaseCMakeBuilder.exists_in_path_warn`: returns the probe result together
with the warning lines printed (`print("WARN:", cmd, "not found in path")`
when absent). -/
def exists_in_path_warn (env : Env) (cmd : String) : Bool × List String :=
  let out := exists_in_path env cmd
  (out, if out then [] else ["WARN: " ++ cmd ++ " not found in path"])

/- ----------------------------------------------------------------------
Pipeline executor: `BaseCMakeBuilder.piped_runner` (lines 69-92).
---------------------------------------------------------------------- -/

/-- stdout setting passed to `subprocess.Popen`: `None` (inherit the
caller's stdout) or `subprocess.PIPE`. -/
inductive StdoutCfg where
  | inherit
  | pipe
deriving DecidableEq

/-- stderr setting passed to `subprocess.Popen`: `None` (inherit) or
`subprocess.STDOUT` (merge into the same pipe as stdout). -/
inductive StderrCfg where
  | inherit
  | toStdout
deriving DecidableEq

/-- stdin setting passed to `subprocess.Popen`: `None` (inherit) or the
stdout pipe object of stage `j`. -/
inductive StdinCfg where
  | inherit
  | pipeOf (j : Nat)
deriving DecidableEq

/-- The stdio wiring of one spawned stage. -/
structure SpawnSpec where
  stdout : StdoutCfg
  stderr : StderrCfg
  stdin : StdinCfg
deriving DecidableEq

/-- Wiring of stage `i` in the launch loop of `piped_runner`:
`last = (i == len(cmds) - 1)` selects inherited stdout/stderr for the sink
and `PIPE`/`STDOUT` otherwise; stdin is `None` for stage 0 (`cmd_process is
None`) and otherwise the stdout pipe of the previously launched stage
(`cmd_process.stdout`, where `cmd_process` is stage `i - 1`). -/
def stage_spawn (n i : Nat) : SpawnSpec :=
  let last := i == n - 1
  { stdout := if last then .inherit else .pipe
    stderr := if last then .inherit else .toStdout
    stdin := if i == 0 then .inherit else .pipeOf (i - 1) }

/-- The list of `Popen` stdio wirings produced by the launch loop of
`piped_runner` for a pipeline `cmds` (one entry per enumerated stage). -/
def piped_runner_spawns (cmds : List (List String)) : List SpawnSpec :=
  (List.range cmds.length).map (stage_spawn cmds.length)

/-- The wait loop body of `piped_runner`: walk a list of return codes,
`sys.exit(returncode)` (here: `some returncode`) at the first non-zero one,
and fall through (`none`, normal return) when all are zero. -/
def wait_loop : List Int → Option Int
  | [] => none
  | r :: rest => if r != 0 then some r else wait_loop rest

/-- Exit behaviour of `piped_runner` given the children's exit codes in
launch order: the wait loop runs over `reversed(processes)`. `some c` means
the whole invocation exits with status `c`; `none` means success. -/
def piped_runner_exit (returncodes : List Int) : Option Int :=
  wait_loop returncodes.reverse

/- ----------------------------------------------------------------------
Running generation before the build pipeline (`build`, lines 222-226).
---------------------------------------------------------------------- -/

/-- Result of running `build`'s execution phase: either the Python process
terminated via `sys.exit code` from inside `piped_runner`, or `build`
returned normally. -/
inductive ExecResult where
  | exited (code : Int)
  | returned
deriving DecidableEq

/-- `if not skip_build: self.piped_runner([build_cmd + native_build_tool_args]
+ piped_commands)`. The boolean records whether the build pipeline's stages
were launched (in `piped_runner` every stage is launched before any wait). -/
def run_build_stage (skip_build : Bool) (build_codes : List Int) :
    ExecResult × Bool :=
  if skip_build then (.returned, false)
  else
    match piped_runner_exit build_codes with
    | some c => (.exited c, true)
    | none => (.returned, true)

/-- The tail of `build`: `if not skip_gen: self.runner(gen_cmd)` — which is
`piped_runner([gen_cmd])` and so exits with the generation command's status
when it is non-zero — followed by the build pipeline stage. `gen_code` is the
generation command's exit status, `build_codes` the build pipeline's. -/
def run_gen_then_build (skip_gen skip_build : Bool) (gen_code : Int)
    (build_codes : List Int) : ExecResult × Bool :=
  if skip_gen then run_build_stage skip_build build_codes
  else
    match piped_runner_exit [gen_code] with
    | some c => (.exited c, false)
    | none => run_build_stage skip_build build_codes

/- ----------------------------------------------------------------------
Native build tool pass-through arguments (`build`, lines 214-220).
---------------------------------------------------------------------- -/

/-- `native_build_tool_args = ["--"]`, extended with the generator-specific
keep-going flag when `--keep-going` is set: `-k` for `Unix Makefiles`,
`-k 0` for `Ninja`, nothing otherwise. -/
def native_build_tool_args (generator : String) (keep_going : Bool) :
    List String :=
  ["--"] ++
    (if keep_going then
      if generator = "Unix Makefiles" then ["-k"]
      else if generator = "Ninja" then ["-k", "0"]
      else []
    else [])

/- ----------------------------------------------------------------------
Command assembler (`BaseCMakeBuilder.build`, lines 109-226).
---------------------------------------------------------------------- -/

/-- The main-parser argument namespace `self.args` (only the fields `build`
reads). `threads` is `argparse` `type=int` with default `None`; `source_dir`
defaults to `None`. -/
structure MainArgs where
  generator : String
  page : Bool
  ccache : Bool
  threads : Option Int
  keep_going : Bool
  source_dir : Option String

/-- The subcommand argument namespace `subargs`. A Python attribute can be
absent entirely (the `try ... except AttributeError: pass` pattern), which
the outer `Option` models; `build_testing`, `gen_args` and `build_args` can
additionally be present with value `None`, which the inner `Option` models. -/
structure SubArgs where
  skip_gen : Option Bool
  release : Option Bool
  debug_info : Option Bool
  build_testing : Option (Option Bool)
  gen_args : Option (Option String)
  build_args : Option (Option String)

/-- `BaseCMakeBuilder.pager_list`. -/
def pager_list : List (List String) :=
  [["less", "-R"], ["bat", "-p"], ["more"]]

/-- `BaseCMakeBuilder.get_pager`: the first pager whose executable is on the
path, or `None`. -/
def get_pager (env : Env) : Option (List String) :=
  pager_list.find? (fun pager => exists_in_path env (pager.headD ""))

/-- `BaseCMakeBuilder.cmake_command`. -/
def cmake_command : String := "cmake"

/-- `BaseCMakeBuilder.build_cmake_command`: prefix the cmake executable with
`unbuffer` when the build command feeds a multi-stage pipeline
(`piped_commands` truthy, i.e. non-empty) and `unbuffer` is on the path. -/
def build_cmake_command (env : Env) (piped_commands : List (List String)) :
    List String :=
  if !piped_commands.isEmpty && exists_in_path env "unbuffer" then
    ["unbuffer", cmake_command]
  else [cmake_command]

/-- Python's `str.split()` with no separator: split on whitespace runs,
dropping empty tokens. Used by the local `append_args` helper in `build`. -/
def py_split_ws (s : String) : List String :=
  (s.split Char.isWhitespace).filter (fun t => !t.isEmpty)

/-- The tokens contributed by an optional free-form argument string attribute
(`append_args(cmd, subargs.gen_args)` under `try/except AttributeError`):
nothing when the attribute is absent or `None`, else its whitespace split. -/
def extra_split (o : Option (Option String)) : List String :=
  match o with
  | some (some s) => py_split_ws s
  | _ => []

/-- The build-type string computed in `build` (lines 153-159): Release plus
debug info is `RelWithDebInfo`, plain Release is `Release`, otherwise
`Debug`. (The `assert debug_info` of the Debug branch is handled in
`build` itself.) -/
def build_type_of (is_release debug_info : Bool) : String :=
  if is_release then
    if debug_info then "RelWithDebInfo" else "Release"
  else "Debug"

/-- The source-directory positional argument (line 168-169): `[source_dir]`
when set, nothing otherwise. -/
def source_dir_args (args : MainArgs) : List String :=
  match args.source_dir with
  | some sd => [sd]
  | none => []

/-- The ccache block (lines 171-177): when `--ccache` is set, probe the path
with `exists_in_path_warn`; on success contribute the three compiler-launcher
definitions, on failure contribute nothing but keep the warning. -/
def ccache_args (env : Env) (args : MainArgs) : List String × List String :=
  if args.ccache then
    let probe := exists_in_path_warn env "ccache"
    (if probe.1 then
      ["-DCMAKE_C_COMPILER_LAUNCHER=ccache",
       "-DCMAKE_CXX_COMPILER_LAUNCHER=ccache",
       "-DCMAKE_CUDA_COMPILER_LAUNCHER=ccache"]
    else [], probe.2)
  else ([], [])

/-- The `BUILD_TESTING` block (lines 179-186): only when the attribute is
present and not `None`. -/
def build_testing_args (subargs : SubArgs) : List String :=
  match subargs.build_testing with
  | some (some true) => ["-DBUILD_TESTING=ON"]
  | some (some false) => ["-DBUILD_TESTING=OFF"]
  | _ => []

/-- The generation command and the warnings emitted while assembling it
(lines 162-197): `[cmake] + gen_args + additional_gen_args` followed by the
whitespace split of `subargs.gen_args`. `extend_gen_cmd` is a no-op in the
base class. -/
def gen_cmd_of (env : Env) (args : MainArgs) (subargs : SubArgs)
    (directory : String) (build_type : String)
    (additional_gen_args : List String) : List String × List String :=
  ([cmake_command] ++
    (["-G" ++ args.generator, "-B" ++ directory,
      "-DCMAKE_BUILD_TYPE=" ++ build_type] ++
      source_dir_args args ++ (ccache_args env args).1 ++
      build_testing_args subargs) ++
    additional_gen_args ++ extra_split subargs.gen_args,
   (ccache_args env args).2)

/-- The build command before the parallelism flag (lines 199-206):
`build_cmake_command + ["--build", directory] + additional_build_args`
followed by the whitespace split of `subargs.build_args`. `extend_build_cmd`
is a no-op in the base class. -/
def build_cmd_pre (env : Env) (subargs : SubArgs) (directory : String)
    (additional_build_args : List String)
    (piped_commands : List (List String)) : List String :=
  build_cmake_command env piped_commands ++ ["--build", directory] ++
    additional_build_args ++ extra_split subargs.build_args

/-- The parallelism flag (lines 208-212): `-j <threads>` when `--threads`
was given; otherwise `-j <cpu_count>` for the `Unix Makefiles` generator and
nothing for any other generator. -/
def jflag_args (env : Env) (args : MainArgs) : List String :=
  match args.threads with
  | none =>
      if args.generator = "Unix Makefiles" then
        ["-j", toString env.cpu_count]
      else []
  | some t => ["-j", toString t]

/-- The full build command assembled by `build` (lines 199-212), before the
native-build-tool pass-through arguments are appended at the call site. -/
def build_cmd_of (env : Env) (args : MainArgs) (subargs : SubArgs)
    (directory : String) (additional_build_args : List String)
    (piped_commands : List (List String)) : List String :=
  build_cmd_pre env subargs directory additional_build_args piped_commands ++
    jflag_args env args

/-- Line 119-122: `skip_gen = skip_gen or subargs.skip_gen` under
`try/except AttributeError` (when `skip_gen` is already `True` the `or`
short-circuits before the attribute access, so the result is the same). -/
def effective_skip_gen (subargs : SubArgs) (skip_gen : Bool) : Bool :=
  match subargs.skip_gen with
  | some v => skip_gen || v
  | none => skip_gen

/-- `piped_commands` as seen from line 199 on: the `None` default resolved
to `[]` (line 133-134), `extend_piped_commands` a no-op in the base class,
and the pager stage appended when `--pager` is set and a pager is found
(lines 138-141). -/
def resolved_piped_commands (env : Env) (args : MainArgs)
    (piped_commands : Option (List (List String))) : List (List String) :=
  let p := piped_commands.getD []
  if args.page then
    match get_pager env with
    | some pager => p ++ [pager]
    | none => p
  else p

/-- Observable outcome of one call to `BaseCMakeBuilder.build`:

* `skippedAll`: both skips set — warn and return, nothing assembled, no
  process launched (lines 124-127);
* `assertFail`: the `assert debug_info` of the Debug branch fired (line
  160), before any command line was assembled and before any process was
  launched;
* `plan`: the warnings emitted during assembly, the assembled generation
  command, the pipeline handed to `piped_runner` (build command plus
  native-build-tool arguments, then the piped commands), and whether the
  generation command and the build pipeline are run (lines 222-226). -/
inductive BuildOutcome where
  | skippedAll (warning : String)
  | assertFail
  | plan (warnings : List String) (gen_cmd : List String)
      (build_pipeline : List (List String)) (run_gen run_build : Bool)
deriving DecidableEq

/-- `BaseCMakeBuilder.build` (lines 109-226) for the base class, where
`extend_piped_commands`, `extend_gen_cmd` and `extend_build_cmd` are no-ops.
The `None` defaults of the optional list parameters are resolved with
`getD []`; the pager stage is appended to `piped_commands` when `--pager`
is set and a pager is found; `subargs.release` and `subargs.debug_info`
override the keyword parameters when the attributes exist. -/
def build (env : Env) (args : MainArgs) (subargs : SubArgs)
    (directory : String) (is_release debug_info : Bool)
    (additional_gen_args additional_build_args : Option (List String))
    (piped_commands : Option (List (List String)))
    (skip_gen skip_build : Bool) : BuildOutcome :=
  let skip_gen := effective_skip_gen subargs skip_gen
  if skip_gen && skip_build then
    .skippedAll "WARN: no commands will be run as gen and build were skipped"
  else
    let additional_gen_args := additional_gen_args.getD []
    let additional_build_args := additional_build_args.getD []
    let piped_commands := resolved_piped_commands env args piped_commands
    let is_release := subargs.release.getD is_release
    let debug_info := subargs.debug_info.getD debug_info
    if !is_release && !debug_info then .assertFail
    else
      let build_type := build_type_of is_release debug_info
      let gen := gen_cmd_of env args subargs directory build_type
        additional_gen_args
      let build_cmd := build_cmd_of env args subargs directory
        additional_build_args piped_commands
      .plan gen.2 gen.1
        ((build_cmd ++ native_build_tool_args args.generator args.keep_going)
          :: piped_commands)
        (!skip_gen) (!skip_build)

/- ----------------------------------------------------------------------
Token-level helpers used to state the specification's properties.
---------------------------------------------------------------------- -/

/-- Character-list version of "starts with". -/
def leads (p s : List Char) : Bool :=
  match p, s with
  | [], _ => true
  | _ :: _, [] => false
  | a :: ps, b :: ss => a == b && leads ps ss

/-- `starts_with p s`: the string `s` begins with `p`. -/
def starts_with (p s : String) : Bool :=
  leads p.data s.data

/-- Number of tokens of a command line satisfying `f`. -/
def count_matching (f : String → Bool) (cmd : List String) : Nat :=
  (cmd.filter f).length

/-- A compiler-launcher definition token: one of the three
`-DCMAKE_*_COMPILER_LAUNCHER=` definitions (C, C++, CUDA). -/
def is_launcher_token (t : String) : Bool :=
  starts_with "-DCMAKE_C_COMPILER_LAUNCHER=" t ||
  starts_with "-DCMAKE_CXX_COMPILER_LAUNCHER=" t ||
  starts_with "-DCMAKE_CUDA_COMPILER_LAUNCHER=" t

/-- Concrete fixture: an environment where no executable is on the path and
eight logical cores are detected. -/
def env0 : Env := ⟨fun _ => false, 8⟩

/-- Concrete fixture: main arguments selecting the `Ninja` generator with
every optional feature off (the main parser's defaults). -/
def args0 : MainArgs :=
  { generator := "Ninja", page := false, ccache := false, threads := none,
    keep_going := false, source_dir := none }

/-- Concrete fixture: subcommand arguments as the `build` subcommand parser
produces them for `--release` with defaults (`debug_info=True`,
`build_testing=None`, `gen_args=None`, `build_args=None`,
`skip_gen=False`). -/
def subargs0 : SubArgs :=
  { skip_gen := some false, release := some true, debug_info := some true,
    build_testing := some none, gen_args := some none,
    build_args := some none }

lemma wait_loop_eq_find (l : List Int) :
    wait_loop l = l.find? (fun c => c != 0) := by
  induction l with
  | nil => rfl
  | cons a t ih =>
      by_cases h : a = 0
      · subst h
        simpa [wait_loop] using ih
      · have hb : (a != 0) = true := by simpa using h
        simp [wait_loop, List.find?, hb]

lemma piped_runner_exit_eq_none (codes : List Int)
    (h : ∀ c ∈ codes, c = 0) : piped_runner_exit codes = none := by
  rw [piped_runner_exit, wait_loop_eq_find, List.find?_eq_none]
  intro x hx
  simp [h x (List.mem_reverse.mp hx)]

lemma leads_self_append (l m : List Char) : leads l (l ++ m) = true := by
  induction l with
  | nil => rfl
  | cons a t ih => simp [leads, ih]

lemma starts_with_append_self (p v : String) :
    starts_with p (p ++ v) = true :=
  leads_self_append p.data v.data

lemma count_matching_append (f : String → Bool) (a b : List String) :
    count_matching f (a ++ b) = count_matching f a + count_matching f b := by
  simp [count_matching, List.filter_append]

lemma count_matching_zero (f : String → Bool) (l : List String)
    (h : ∀ t ∈ l, f t = false) : count_matching f l = 0 := by
  simp only [count_matching, List.length_eq_zero]
  exact List.filter_eq_nil_iff.mpr (fun t ht => by simp [h t ht])

lemma count_matching_cons (f : String → Bool) (a : String)
    (l : List String) :
    count_matching f (a :: l) =
      (if f a then 1 else 0) + count_matching f l := by
  simp only [count_matching, List.filter_cons]
  split <;> simp [Nat.add_comm]

lemma forall_mem_build_testing (f : String → Bool)
    (hon : f "-DBUILD_TESTING=ON" = false)
    (hoff : f "-DBUILD_TESTING=OFF" = false) (subargs : SubArgs) :
    ∀ t ∈ build_testing_args subargs, f t = false := by
  intro t ht
  rcases hbt : subargs.build_testing with _ | ob
  · simp [build_testing_args, hbt] at ht
  · rcases ob with _ | b
    · simp [build_testing_args, hbt] at ht
    · cases b <;> simp [build_testing_args, hbt] at ht <;>
        subst ht <;> assumption

lemma ccache_args_pos (env : Env) (args : MainArgs)
    (hcc : args.ccache = true) (hp : env.inPath "ccache" = true) :
    ccache_args env args =
      (["-DCMAKE_C_COMPILER_LAUNCHER=ccache",
        "-DCMAKE_CXX_COMPILER_LAUNCHER=ccache",
        "-DCMAKE_CUDA_COMPILER_LAUNCHER=ccache"], []) := by
  simp [ccache_args, exists_in_path_warn, exists_in_path, hcc, hp]

lemma ccache_args_neg (env : Env) (args : MainArgs)
    (hcc : args.ccache = true) (hp : env.inPath "ccache" = false) :
    ccache_args env args = ([], ["WARN: ccache not found in path"]) := by
  simp [ccache_args, exists_in_path_warn, exists_in_path, hcc, hp]

lemma ccache_args_off (env : Env) (args : MainArgs)
    (hcc : args.ccache = false) : ccache_args env args = ([], []) := by
  simp [ccache_args, hcc]

lemma count_ccache_zero (f : String → Bool) (env : Env) (args : MainArgs)
    (h1 : f "-DCMAKE_C_COMPILER_LAUNCHER=ccache" = false)
    (h2 : f "-DCMAKE_CXX_COMPILER_LAUNCHER=ccache" = false)
    (h3 : f "-DCMAKE_CUDA_COMPILER_LAUNCHER=ccache" = false) :
    count_matching f (ccache_args env args).1 = 0 := by
  rcases Bool.eq_false_or_eq_true args.ccache with hcc | hcc
  · rcases Bool.eq_false_or_eq_true (env.inPath "ccache") with hp | hp
    · rw [ccache_args_pos env args hcc hp]
      simp [count_matching, List.filter_cons, h1, h2, h3]
    · rw [ccache_args_neg env args hcc hp]
      rfl
  · rw [ccache_args_off env args hcc]
    rfl

lemma count_gen_cmd (f : String → Bool) (env : Env) (args : MainArgs)
    (subargs : SubArgs) (directory bt : String) (aga : List String)
    (hcmake : f cmake_command = false)
    (hG : f ("-G" ++ args.generator) = false)
    (hB : f ("-B" ++ directory) = false)
    (hbt_args : ∀ t ∈ build_testing_args subargs, f t = false)
    (hsd : ∀ s, args.source_dir = some s → f s = false)
    (haga : ∀ t ∈ aga, f t = false)
    (hga : ∀ t ∈ extra_split subargs.gen_args, f t = false) :
    count_matching f (gen_cmd_of env args subargs directory bt aga).1 =
      (if f ("-DCMAKE_BUILD_TYPE=" ++ bt) then 1 else 0) +
      count_matching f (ccache_args env args).1 := by
  have hsd0 : count_matching f (source_dir_args args) = 0 := by
    cases h : args.source_dir with
    | none => simp [source_dir_args, h, count_matching]
    | some s =>
        have he : source_dir_args args = [s] := by
          simp [source_dir_args, h]
        rw [he]
        apply count_matching_zero
        intro t ht
        rw [List.mem_singleton] at ht
        rw [ht]
        exact hsd s h
  have hbt0 : count_matching f (build_testing_args subargs) = 0 :=
    count_matching_zero _ _ hbt_args
  have haga0 : count_matching f aga = 0 := count_matching_zero _ _ haga
  have hga0 : count_matching f (extra_split subargs.gen_args) = 0 :=
    count_matching_zero _ _ hga
  have hnil : count_matching f [] = 0 := rfl
  simp only [gen_cmd_of, count_matching_append, count_matching_cons,
    hnil, hsd0, hbt0, haga0, hga0, hcmake, hG, hB]
  simp

lemma mem_build_cmake_command (env : Env) (pcs : List (List String))
    (t : String) (ht : t ∈ build_cmake_command env pcs) :
    t = "unbuffer" ∨ t = "cmake" := by
  rw [build_cmake_command] at ht
  split at ht <;> simp [cmake_command] at ht <;> tauto

lemma count_j_build_cmd_pre (env : Env) (subargs : SubArgs)
    (directory : String) (aba : List String)
    (pcs : List (List String))
    (hd : directory ≠ "-j")
    (haba : ∀ t ∈ aba, t ≠ "-j")
    (hba : ∀ t ∈ extra_split subargs.build_args, t ≠ "-j") :
    count_matching (fun x => x == "-j")
      (build_cmd_pre env subargs directory aba pcs) = 0 := by
  apply count_matching_zero
  intro t ht
  rw [beq_eq_false_iff_ne]
  rw [build_cmd_pre, List.append_assoc, List.append_assoc] at ht
  rcases List.mem_append.mp ht with h | ht1
  · rcases mem_build_cmake_command env pcs t h with h' | h' <;>
      subst h' <;> decide
  · rcases List.mem_append.mp ht1 with h | ht2
    · rcases List.mem_cons.mp h with h' | h'
      · subst h'
        decide
      · rw [List.mem_singleton] at h'
        subst h'
        exact hd
    · rcases List.mem_append.mp ht2 with h | h
      · exact haba t h
      · exact hba t h

/-- The plan branch of `build`, fully spelled out: whenever neither "both
skips set" nor the Debug assertion applies, `build` returns the `plan`
outcome built from `gen_cmd_of`, `build_cmd_of`, `native_build_tool_args`
and `resolved_piped_commands`. -/
lemma build_eq_plan (env : Env) (args : MainArgs) (subargs : SubArgs)
    (directory : String) (ir di : Bool)
    (aga aba : Option (List String)) (pcs : Option (List (List String)))
    (sg sb : Bool)
    (hskip : (effective_skip_gen subargs sg && sb) = false)
    (hdbg : (!(subargs.release.getD ir) && !(subargs.debug_info.getD di))
      = false) :
    build env args subargs directory ir di aga aba pcs sg sb =
      .plan
        (gen_cmd_of env args subargs directory
          (build_type_of (subargs.release.getD ir)
            (subargs.debug_info.getD di)) (aga.getD [])).2
        (gen_cmd_of env args subargs directory
          (build_type_of (subargs.release.getD ir)
            (subargs.debug_info.getD di)) (aga.getD [])).1
        ((build_cmd_of env args subargs directory (aba.getD [])
            (resolved_piped_commands env args pcs) ++
          native_build_tool_args args.generator args.keep_going)
          :: resolved_piped_commands env args pcs)
        (!effective_skip_gen subargs sg) (!sb) := by
  rw [build]
  rw [if_neg (by simp [hskip]), if_neg (by simp [hdbg])]

lemma run_build_stage_snd (l : List Int) :
    (run_build_stage false l).2 = true := by
  rw [run_build_stage]
  cases piped_runner_exit l <;> simp

/- ----------------------------------------------------------------------
Claims.
---------------------------------------------------------------------- -/

/-- Claim C3: `piped_runner` awaits the stages in reverse launch order and
exits with the first non-zero child exit status found in that sweep (the
sweep stops there, which is what `List.find?` over the reversed code list
expresses); if every stage exits zero it returns normally. A three-stage
pipeline whose middle stage exits 2 while the others exit 0 yields overall
outcome 2. -/
theorem c3_reverse_wait_exit_status :
    (∀ codes : List Int,
      piped_runner_exit codes = codes.reverse.find? (fun c => c != 0)) ∧
    (∀ codes : List Int, (∀ c ∈ codes, c = 0) →
      piped_runner_exit codes = none) ∧
    piped_runner_exit [0, 2, 0] = some 2 :=
  ⟨fun codes => wait_loop_eq_find codes.reverse,
   piped_runner_exit_eq_none, rfl⟩

/-- Claim C3 witness: a concrete all-zero pipeline succeeds, by the second
part of the claim theorem. -/
theorem c3_witness : piped_runner_exit [0, 0, 0] = none :=
  c3_reverse_wait_exit_status.2.1 [0, 0, 0] (by decide)

/-- Claim C6: in `piped_runner`, a non-sink stage `i` has its stdout
captured into a pipe and its stderr merged into that same pipe; the sink
stage inherits the caller's stdout and stderr; stage 0 inherits stdin
(also in the single-stage case, where stage 0 is the sink) and every later
stage reads the stdout pipe of the stage launched just before it. -/
theorem c6_pipeline_stdio_wiring (cmds : List (List String)) (i : Nat)
    (h : i < cmds.length) :
    (i + 1 < cmds.length →
      ((piped_runner_spawns cmds).getD i
        ⟨.inherit, .inherit, .inherit⟩).stdout = StdoutCfg.pipe ∧
      ((piped_runner_spawns cmds).getD i
        ⟨.inherit, .inherit, .inherit⟩).stderr = StderrCfg.toStdout) ∧
    (i + 1 = cmds.length →
      ((piped_runner_spawns cmds).getD i
        ⟨.inherit, .inherit, .inherit⟩).stdout = StdoutCfg.inherit ∧
      ((piped_runner_spawns cmds).getD i
        ⟨.inherit, .inherit, .inherit⟩).stderr = StderrCfg.inherit) ∧
    (i = 0 →
      ((piped_runner_spawns cmds).getD i
        ⟨.inherit, .inherit, .inherit⟩).stdin = StdinCfg.inherit) ∧
    (0 < i →
      ((piped_runner_spawns cmds).getD i
        ⟨.inherit, .inherit, .inherit⟩).stdin = StdinCfg.pipeOf (i - 1)) := by
  have hs : (piped_runner_spawns cmds).getD i ⟨.inherit, .inherit, .inherit⟩
      = stage_spawn cmds.length i := by
    rw [piped_runner_spawns, List.getD_eq_getElem?_getD]
    rw [List.getElem?_map, List.getElem?_range h]
    rfl
  refine ⟨?_, ?_, ?_, ?_⟩
  · intro hlt
    have hne : (i == cmds.length - 1) = false := by
      simp only [beq_eq_false_iff_ne, ne_eq]
      omega
    rw [hs]
    simp [stage_spawn, hne]
  · intro heq
    have hee : (i == cmds.length - 1) = true := by
      simp only [beq_iff_eq]
      omega
    rw [hs]
    simp [stage_spawn, hee]
  · intro h0
    subst h0
    rw [hs]
    simp [stage_spawn]
  · intro hpos
    have hne : (i == 0) = false := by
      simp only [beq_eq_false_iff_ne, ne_eq]
      omega
    rw [hs]
    simp [stage_spawn, hne]

/-- Claim C6 witness: in a three-stage pipeline the middle stage writes to
a pipe and reads the pipe of stage 0. -/
theorem c6_witness :
    ((piped_runner_spawns [["a"], ["b"], ["c"]]).getD 1
      ⟨.inherit, .inherit, .inherit⟩).stdout = StdoutCfg.pipe ∧
    ((piped_runner_spawns [["a"], ["b"], ["c"]]).getD 1
      ⟨.inherit, .inherit, .inherit⟩).stdin = StdinCfg.pipeOf 0 := by
  have h := c6_pipeline_stdio_wiring [["a"], ["b"], ["c"]] 1 (by decide)
  exact ⟨(h.1 (by decide)).1, h.2.2.2 (by decide)⟩

/-- Claim C7: when both skip flags are set (the gen skip possibly coming
from `subargs.skip_gen`), `build` only emits the warning and returns the
`skippedAll` outcome: no command line is assembled and no process is
launched. -/
theorem c7_both_skips_noop (env : Env) (args : MainArgs) (subargs : SubArgs)
    (directory : String) (ir di : Bool)
    (aga aba : Option (List String)) (pcs : Option (List (List String)))
    (sg sb : Bool)
    (hg : effective_skip_gen subargs sg = true) (hb : sb = true) :
    build env args subargs directory ir di aga aba pcs sg sb =
      .skippedAll
        "WARN: no commands will be run as gen and build were skipped" := by
  rw [build, if_pos (by simp [hg, hb])]

/-- Claim C7 witness: a concrete invocation with `skip_gen` arriving via the
subcommand arguments and `skip_build` passed directly. -/
theorem c7_witness :
    build env0 args0
      { subargs0 with skip_gen := some true } "build/release" false true
      none none none false true =
      .skippedAll
        "WARN: no commands will be run as gen and build were skipped" :=
  c7_both_skips_noop env0 args0 _ "build/release" false true none none none
    false true (by decide) rfl

/-- Claim C8: when `--keep-going` is set, the native-build-tool pass-through
arguments after the `--` separator are exactly `-k` for the
`Unix Makefiles` generator, exactly `-k 0` for the `Ninja` generator, and
empty (no flag, no error) for every other generator. -/
theorem c8_keep_going_flags (generator : String) :
    native_build_tool_args generator true =
      (if generator = "Unix Makefiles" then ["--", "-k"]
       else if generator = "Ninja" then ["--", "-k", "0"]
       else ["--"]) := by
  by_cases h1 : generator = "Unix Makefiles" <;>
    by_cases h2 : generator = "Ninja" <;>
    simp [native_build_tool_args, h1, h2]

/-- Claim C10: if generation is not skipped and the generation command
exits non-zero, the whole invocation exits with that status and the build
pipeline is never launched; the build pipeline is launched exactly when
generation succeeded or was skipped (and building is not skipped). -/
theorem c10_generation_gates_build (sg sb : Bool) (gc : Int)
    (bcs : List Int) :
    (sg = false → gc ≠ 0 →
      run_gen_then_build sg sb gc bcs = (.exited gc, false)) ∧
    (sb = false → (sg = true ∨ gc = 0) →
      (run_gen_then_build sg sb gc bcs).2 = true) ∧
    ((run_gen_then_build sg sb gc bcs).2 = true → sg = true ∨ gc = 0) := by
  have hone : ∀ c : Int, piped_runner_exit [c] =
      if c != 0 then some c else none := fun c => rfl
  refine ⟨?_, ?_, ?_⟩
  · intro hsg hgc
    subst hsg
    rw [run_gen_then_build, if_neg (by simp)]
    rw [hone, if_pos (by simpa using hgc)]
  · intro hsb hor
    subst hsb
    cases sg with
    | true =>
        rw [run_gen_then_build, if_pos rfl]
        exact run_build_stage_snd bcs
    | false =>
        have hgc : gc = 0 := by simpa using hor
        subst hgc
        rw [run_gen_then_build, if_neg (by simp)]
        rw [hone]
        simpa using run_build_stage_snd bcs
  · intro hlaunched
    cases sg with
    | true => exact Or.inl rfl
    | false =>
        by_cases hgc : gc = 0
        · exact Or.inr hgc
        · rw [run_gen_then_build, if_neg (by simp)] at hlaunched
          rw [hone, if_pos (by simpa using hgc)] at hlaunched
          simp at hlaunched

/-- Claim C10 witness: with generation run and exiting 3, the invocation
exits 3 and the build pipeline (whose stages would all succeed) is not
launched. -/
theorem c10_witness :
    run_gen_then_build false false 3 [0] = (.exited 3, false) :=
  (c10_generation_gates_build false false 3 [0]).1 rfl (by decide)

/-- Claim C2: when the call is not a both-skips no-op, the effective
`isRelease=false, keepDebugInfo=false` combination makes `build` stop at the
`assert debug_info` (the `assertFail` outcome, which by construction carries
no command line and precedes every process launch); whenever `isRelease` or
`keepDebugInfo` holds the assertion never fires, and `build` proceeds to a
`plan` outcome. -/
theorem c2_debug_info_assertion (env : Env) (args : MainArgs)
    (subargs : SubArgs) (directory : String) (ir di : Bool)
    (aga aba : Option (List String)) (pcs : Option (List (List String)))
    (sg sb : Bool) :
    (subargs.release.getD ir = false → subargs.debug_info.getD di = false →
      (effective_skip_gen subargs sg && sb) = false →
      build env args subargs directory ir di aga aba pcs sg sb =
        .assertFail) ∧
    (subargs.release.getD ir = true ∨ subargs.debug_info.getD di = true →
      build env args subargs directory ir di aga aba pcs sg sb ≠
        .assertFail) ∧
    (subargs.release.getD ir = true ∨ subargs.debug_info.getD di = true →
      (effective_skip_gen subargs sg && sb) = false →
      ∃ ws gc bp,
        build env args subargs directory ir di aga aba pcs sg sb =
          .plan ws gc bp (!effective_skip_gen subargs sg) (!sb)) := by
  refine ⟨?_, ?_, ?_⟩
  · intro h1 h2 h3
    rw [build, if_neg (by simp [h3]), if_pos (by simp [h1, h2])]
  · intro hor
    by_cases hskip : (effective_skip_gen subargs sg && sb) = true
    · rw [build, if_pos (by simpa using hskip)]
      simp
    · have hdbg : (!(subargs.release.getD ir) &&
          !(subargs.debug_info.getD di)) = false := by
        rcases hor with h | h <;> simp [h]
      rw [build_eq_plan env args subargs directory ir di aga aba pcs sg sb
        (by simpa using hskip) hdbg]
      simp
  · intro hor hskip
    have hdbg : (!(subargs.release.getD ir) &&
        !(subargs.debug_info.getD di)) = false := by
      rcases hor with h | h <;> simp [h]
    exact ⟨_, _, _,
      build_eq_plan env args subargs directory ir di aga aba pcs sg sb
        hskip hdbg⟩

/-- Claim C2 witness: a concrete `--debug --no-debug-info` invocation hits
the assertion, by the first part of the claim theorem. -/
theorem c2_witness :
    build env0 args0
      { subargs0 with release := some false, debug_info := some false }
      "build/debug" false true none none none false false = .assertFail :=
  (c2_debug_info_assertion env0 args0
    { subargs0 with release := some false, debug_info := some false }
    "build/debug" false true none none none false false).1 rfl rfl
    (by decide)

/-- Claim C9 counterexample: for the configuration
`generator="Ninja", isRelease=true, keepDebugInfo=true,
enableTestBuilding=unset, parallelism=unset` (compiler cache off, no source
directory, no extra arguments, single-stage pipeline) the generation
command is the expected one, but the build command actually executed is
`[cmake, --build, <dir>, --]` — the native-build-tool separator `--` is
always appended — so it is not exactly `[cmake, --build, <dir>]` as the
claim states. -/
theorem c9_counterexample :
    build env0 args0 subargs0 "build/release" false true none none none
        false false =
      .plan [] ["cmake", "-GNinja", "-Bbuild/release",
        "-DCMAKE_BUILD_TYPE=RelWithDebInfo"]
        [["cmake", "--build", "build/release", "--"]] true true ∧
    [["cmake", "--build", "build/release", "--"]] ≠
      ([["cmake", "--build", "build/release"]] : List (List String)) :=
  ⟨rfl, by decide⟩

/-- Claim C9 (amended): for that configuration the generation command is
exactly `[cmake, -GNinja, -B<dir>, -DCMAKE_BUILD_TYPE=RelWithDebInfo]` and
the executed build command is exactly `[cmake, --build, <dir>, --]` — the
claimed `[cmake, --build, <dir>]` followed by the always-present
native-build-tool separator — with no `-j` flag appended. -/
theorem c9_example_commands :
    build env0 args0 subargs0 "build/release" false true none none none
        false false =
      .plan [] ["cmake", "-GNinja", "-Bbuild/release",
        "-DCMAKE_BUILD_TYPE=RelWithDebInfo"]
        [["cmake", "--build", "build/release", "--"]] true true ∧
    "-j" ∉ ["cmake", "--build", "build/release", "--"] :=
  ⟨rfl, by decide⟩

/-- Claim C1 counterexample: for a Release-with-debug-info configuration the
generation command's build-type token is `-DCMAKE_BUILD_TYPE=RelWithDebInfo`;
no token `-DCMAKE_BUILD_TYPE=ReleaseWithDebugInfo` (the spelling the claim
states is emitted) appears. -/
theorem c1_counterexample :
    (gen_cmd_of env0 args0 subargs0 "build/release"
      (build_type_of true true) []).1 =
      ["cmake", "-GNinja", "-Bbuild/release",
       "-DCMAKE_BUILD_TYPE=RelWithDebInfo"] ∧
    "-DCMAKE_BUILD_TYPE=ReleaseWithDebugInfo" ∉
      (gen_cmd_of env0 args0 subargs0 "build/release"
        (build_type_of true true) []).1 :=
  ⟨rfl, by decide⟩

/-- Claim C1 (amended): for every configuration whose source directory and
free-form extra generation arguments contain no `-DCMAKE_BUILD_TYPE=` token
of their own, the generation command contains exactly one build-type
definition token, namely `-DCMAKE_BUILD_TYPE=<bt>` where `bt` is
`RelWithDebInfo` for `isRelease=true, keepDebugInfo=true`, `Release` for
`isRelease=true, keepDebugInfo=false`, and `Debug` for `isRelease=false`. -/
theorem c1_build_type_token (env : Env) (args : MainArgs)
    (subargs : SubArgs) (directory : String) (er ed : Bool)
    (aga : List String)
    (hsd : ∀ s, args.source_dir = some s →
      starts_with "-DCMAKE_BUILD_TYPE=" s = false)
    (haga : ∀ t ∈ aga, starts_with "-DCMAKE_BUILD_TYPE=" t = false)
    (hga : ∀ t ∈ extra_split subargs.gen_args,
      starts_with "-DCMAKE_BUILD_TYPE=" t = false) :
    count_matching (starts_with "-DCMAKE_BUILD_TYPE=")
      (gen_cmd_of env args subargs directory (build_type_of er ed) aga).1
      = 1 ∧
    ("-DCMAKE_BUILD_TYPE=" ++ build_type_of er ed) ∈
      (gen_cmd_of env args subargs directory (build_type_of er ed) aga).1 ∧
    build_type_of true true = "RelWithDebInfo" ∧
    build_type_of true false = "Release" ∧
    build_type_of false ed = "Debug" := by
  refine ⟨?_, ?_, rfl, rfl, rfl⟩
  · rw [count_gen_cmd (starts_with "-DCMAKE_BUILD_TYPE=") env args subargs
      directory (build_type_of er ed) aga rfl rfl rfl
      (forall_mem_build_testing _ (by decide) (by decide) subargs)
      hsd haga hga]
    rw [if_pos (starts_with_append_self "-DCMAKE_BUILD_TYPE="
      (build_type_of er ed))]
    rw [count_ccache_zero _ env args (by decide) (by decide) (by decide)]
  · simp [gen_cmd_of]

/-- Claim C1 witness: the amended claim evaluated on a concrete Ninja
Release-with-debug-info configuration. -/
theorem c1_witness :
    count_matching (starts_with "-DCMAKE_BUILD_TYPE=")
      (gen_cmd_of env0 args0 subargs0 "build/release"
        (build_type_of true true) []).1 = 1 ∧
    ("-DCMAKE_BUILD_TYPE=" ++ build_type_of true true) ∈
      (gen_cmd_of env0 args0 subargs0 "build/release"
        (build_type_of true true) []).1 ∧
    build_type_of true true = "RelWithDebInfo" ∧
    build_type_of true false = "Release" ∧
    build_type_of false true = "Debug" :=
  c1_build_type_token env0 args0 subargs0 "build/release" true true []
    (by intro s h; simp [args0] at h)
    (by intro t ht; simp at ht)
    (by intro t ht; simp [subargs0, extra_split] at ht)

/-- Claim C4: when no free-form build argument and neither the directory is
the literal `-j`: if `--threads` is set the build command is the `-j`-free
part followed by exactly `-j <value>`, whatever the generator; if it is
unset and the generator is `Unix Makefiles` the build command ends in
`-j <detected core count>`; for any other generator with `--threads` unset
the build command contains no `-j` token at all. -/
theorem c4_parallelism_flag (env : Env) (args : MainArgs)
    (subargs : SubArgs) (directory : String) (aba : List String)
    (pcs : List (List String))
    (hd : directory ≠ "-j")
    (haba : ∀ t ∈ aba, t ≠ "-j")
    (hba : ∀ t ∈ extra_split subargs.build_args, t ≠ "-j") :
    (∀ t : Int, args.threads = some t →
      build_cmd_of env args subargs directory aba pcs =
        build_cmd_pre env subargs directory aba pcs ++
          ["-j", toString t] ∧
      count_matching (fun x => x == "-j")
        (build_cmd_pre env subargs directory aba pcs) = 0) ∧
    (args.threads = none → args.generator = "Unix Makefiles" →
      build_cmd_of env args subargs directory aba pcs =
        build_cmd_pre env subargs directory aba pcs ++
          ["-j", toString env.cpu_count] ∧
      count_matching (fun x => x == "-j")
        (build_cmd_pre env subargs directory aba pcs) = 0) ∧
    (args.threads = none → args.generator ≠ "Unix Makefiles" →
      count_matching (fun x => x == "-j")
        (build_cmd_of env args subargs directory aba pcs) = 0) := by
  have hpre := count_j_build_cmd_pre env subargs directory aba pcs hd
    haba hba
  refine ⟨?_, ?_, ?_⟩
  · intro t ht
    refine ⟨?_, hpre⟩
    simp only [build_cmd_of, jflag_args, ht]
  · intro ht hg
    refine ⟨?_, hpre⟩
    simp only [build_cmd_of, jflag_args, ht, hg, if_pos]
  · intro ht hg
    have hj : jflag_args env args = [] := by
      simp only [jflag_args, ht]
      rw [if_neg hg]
    rw [build_cmd_of, hj, List.append_nil]
    exact hpre

/-- Claim C4 witness: with `--threads 4` the `-j 4` pair is appended and no
other `-j` token occurs. -/
theorem c4_witness :
    build_cmd_of env0 { args0 with threads := some 4 } subargs0
      "build/release" [] [] =
      build_cmd_pre env0 subargs0 "build/release" [] [] ++
        ["-j", toString (4 : Int)] ∧
    count_matching (fun x => x == "-j")
      (build_cmd_pre env0 subargs0 "build/release" [] []) = 0 :=
  (c4_parallelism_flag env0 { args0 with threads := some 4 } subargs0
    "build/release" [] [] (by decide)
    (by intro t ht; simp at ht)
    (by intro t ht; simp [subargs0, extra_split] at ht)).1 4 rfl

/-- Claim C5: with the compiler cache requested (and no launcher-like token
among the source directory or free-form extra generation arguments): if
`ccache` is on the path, the generation command contains exactly three
compiler-launcher definitions (C, C++, CUDA) and no warning is emitted; if
it is absent, the command contains zero launcher tokens and exactly the
warning is emitted; in both cases `build` still proceeds to a `plan`
outcome, never a failure. -/
theorem c5_compiler_cache (env : Env) (args : MainArgs) (subargs : SubArgs)
    (directory bt : String) (aga : List String)
    (hcc : args.ccache = true)
    (hsd : ∀ s, args.source_dir = some s → is_launcher_token s = false)
    (haga : ∀ t ∈ aga, is_launcher_token t = false)
    (hga : ∀ t ∈ extra_split subargs.gen_args,
      is_launcher_token t = false) :
    (env.inPath "ccache" = true →
      count_matching is_launcher_token
        (gen_cmd_of env args subargs directory bt aga).1 = 3 ∧
      "-DCMAKE_C_COMPILER_LAUNCHER=ccache" ∈
        (gen_cmd_of env args subargs directory bt aga).1 ∧
      "-DCMAKE_CXX_COMPILER_LAUNCHER=ccache" ∈
        (gen_cmd_of env args subargs directory bt aga).1 ∧
      "-DCMAKE_CUDA_COMPILER_LAUNCHER=ccache" ∈
        (gen_cmd_of env args subargs directory bt aga).1 ∧
      (gen_cmd_of env args subargs directory bt aga).2 = []) ∧
    (env.inPath "ccache" = false →
      count_matching is_launcher_token
        (gen_cmd_of env args subargs directory bt aga).1 = 0 ∧
      (gen_cmd_of env args subargs directory bt aga).2 =
        ["WARN: ccache not found in path"]) ∧
    (∀ (ir di sg sb : Bool) (aba : Option (List String))
        (pcs : Option (List (List String))),
      (subargs.release.getD ir = true ∨
        subargs.debug_info.getD di = true) →
      (effective_skip_gen subargs sg && sb) = false →
      ∃ ws gc bp,
        build env args subargs directory ir di (some aga) aba pcs sg sb =
          .plan ws gc bp (!effective_skip_gen subargs sg) (!sb)) := by
  have hbt : is_launcher_token ("-DCMAKE_BUILD_TYPE=" ++ bt) = false := rfl
  have hcount := count_gen_cmd is_launcher_token env args subargs
    directory bt aga rfl rfl rfl
    (forall_mem_build_testing _ (by decide) (by decide) subargs)
    hsd haga hga
  refine ⟨?_, ?_, ?_⟩
  · intro hp
    refine ⟨?_, ?_, ?_, ?_, ?_⟩
    · rw [hcount, hbt, ccache_args_pos env args hcc hp]
      decide
    · simp [gen_cmd_of, ccache_args_pos env args hcc hp]
    · simp [gen_cmd_of, ccache_args_pos env args hcc hp]
    · simp [gen_cmd_of, ccache_args_pos env args hcc hp]
    · simp [gen_cmd_of, ccache_args_pos env args hcc hp]
  · intro hp
    constructor
    · rw [hcount, hbt, ccache_args_neg env args hcc hp]
      decide
    · simp [gen_cmd_of, ccache_args_neg env args hcc hp]
  · intro ir di sg sb aba pcs hor hskip
    have hdbg : (!(subargs.release.getD ir) &&
        !(subargs.debug_info.getD di)) = false := by
      rcases hor with h | h <;> simp [h]
    exact ⟨_, _, _,
      build_eq_plan env args subargs directory ir di (some aga) aba pcs
        sg sb hskip hdbg⟩

/-- Claim C5 witness: requesting the compiler cache in an environment where
`ccache` is absent yields zero launcher tokens and exactly the warning. -/
theorem c5_witness :
    count_matching is_launcher_token
      (gen_cmd_of env0 { args0 with ccache := true } subargs0
        "build/release" "RelWithDebInfo" []).1 = 0 ∧
    (gen_cmd_of env0 { args0 with ccache := true } subargs0
      "build/release" "RelWithDebInfo" []).2 =
      ["WARN: ccache not found in path"] :=
  (c5_compiler_cache env0 { args0 with ccache := true } subargs0
    "build/release" "RelWithDebInfo" [] rfl
    (by intro s h; simp [args0] at h)
    (by intro t ht; simp at ht)
    (by intro t ht; simp [subargs0, extra_split] at ht)).2.1 rfl

end CmakeCli
